import Mathlib

/-!
Verification development for the JSMockServer repository (mock_server.js,
second revision of the file, the one defining `close` and the port
validation).  The JavaScript module is shallowly embedded: the mapping
store, the request matcher, the response synthesizer, the lifecycle
operations `start`/`close`/`when`/`response`/`reset` and the
Casper interception predicate become explicit Lean functions over an
explicit server state.  External collaborators (the `webserver` listener,
`fs.read`, the JavaScript regular-expression engine) are passed in as
function parameters, following the spec's collaborator model.
-/

set_option autoImplicit false

namespace MockServer

/-! ## JavaScript dynamic values

Plan fields (`status`, `responseTime`, `isTimeout`, `responseText`,
`responseFile`) are dynamically typed in the source; `JVal` models the
primitive JavaScript values those fields can hold.  Numbers are modelled
as integers (fractional values play no role in any claim).
-/

inductive JVal where
  | undef
  | null
  | bool (b : Bool)
  | num (n : Int)
  | str (s : String)
deriving DecidableEq

/-- Models JavaScript truthiness of a `JVal` (`undefined`, `null`, `false`,
`0` and the empty string are falsy). -/
def JVal.truthy : JVal → Bool
  | .undef => false
  | .null => false
  | .bool b => b
  | .num n => n != 0
  | .str s => s != ""

/-- Models the source's `isString` helper (`typeof myVar === 'string'`). -/
def JVal.isString : JVal → Bool
  | .str _ => true
  | _ => false

/-- Models the source's `isNumber` helper (`typeof myVar === 'number'`). -/
def JVal.isNumber : JVal → Bool
  | .num _ => true
  | _ => false

/-- Payload of a string `JVal`; only consulted under an `isString` guard. -/
def JVal.strVal : JVal → String
  | .str s => s
  | _ => ""

/-- Models JavaScript string coercion of a primitive value (used when a
non-string value is handed to the `fs.read` collaborator). -/
def JVal.jsToString : JVal → String
  | .undef => "undefined"
  | .null => "null"
  | .bool true => "true"
  | .bool false => "false"
  | .num n => toString n
  | .str s => s

/-! ## String helpers -/

/-- Models JavaScript `s.toUpperCase()` (ASCII range, which is all the
source ever feeds it: HTTP method names). -/
def jsUpper (s : String) : String := ⟨s.data.map Char.toUpper⟩

/-- Models JavaScript `s.toLowerCase()` (ASCII range). -/
def jsLower (s : String) : String := ⟨s.data.map Char.toLower⟩

/-- Containment of one character list in another (needle first). -/
def listContains (needle : List Char) : List Char → Bool
  | [] => needle.isEmpty
  | c :: cs => needle.isPrefixOf (c :: cs) || listContains needle cs

/-- Models JavaScript `hay.indexOf(needle) >= 0`: substring containment,
true for the empty needle. -/
def strContains (needle hay : String) : Bool := listContains needle.data hay.data

/-- Models the quote escaping done by `when`:
`req.data.replace(/\"/g, "\\\"")`, i.e. every `"` becomes `\"`. -/
def escapeQuotes (s : String) : String :=
  ⟨(s.data.map fun c => if c = '"' then ['\\', '"'] else [c]).flatten⟩

/-- Lowercase hex digit, for the `\u00XX` escapes of `JSON.stringify`. -/
def hexDigitChar (n : Nat) : Char :=
  if n < 10 then Char.ofNat (48 + n) else Char.ofNat (97 + n - 10)

/-- How `JSON.stringify` escapes one character inside a string literal. -/
def jsonEscapeChar (c : Char) : List Char :=
  if c = '"' then ['\\', '"']
  else if c = '\\' then ['\\', '\\']
  else if c = '\x08' then ['\\', 'b']
  else if c = '\x0c' then ['\\', 'f']
  else if c = '\n' then ['\\', 'n']
  else if c = '\r' then ['\\', 'r']
  else if c = '\t' then ['\\', 't']
  else if c.toNat < 32 then
    ['\\', 'u', '0', '0', hexDigitChar (c.toNat / 16), hexDigitChar (c.toNat % 16)]
  else [c]

/-- Models `JSON.stringify` applied to a JavaScript string: the content is
escaped and wrapped in double quotes. -/
def jsonQuote (s : String) : String :=
  ⟨'"' :: (s.data.map jsonEscapeChar).flatten ++ ['"']⟩

/-- Models JavaScript `new RegExp(p).test(s)` for pattern strings free of
regular-expression metacharacters: on such patterns the compiled regex
matches exactly when `s` contains `p` as a literal substring.  Every
concrete pattern this file evaluates is metacharacter-free, so this
instantiation agrees with the JavaScript engine at every evaluated point.
Theorems quantify over an arbitrary test function. -/
def literalRegexTest (p s : String) : Bool := strContains p s

/-! ## Data model -/

/-- Request pattern handed to `when`: the three fields consulted by the
match conditions in the source.  `none` models an absent field. -/
structure RequestPattern where
  method : Option String
  url : Option String
  data : Option String
deriving DecidableEq

/-- Models `Object.keys(pattern).length === 0` for a pattern carrying the
three fields the matcher consults. -/
def RequestPattern.isEmptyObj (p : RequestPattern) : Bool :=
  p.method.isNone && p.url.isNone && p.data.isNone

/-- The empty object `{}`, the source's "no pending pattern" sentinel. -/
def emptyPattern : RequestPattern := ⟨none, none, none⟩

/-- Response plan handed to `response`.  `headers` is an association list
(JavaScript object literal); the remaining fields are dynamic values,
`JVal.undef` modelling an absent field. -/
structure ResponsePlan where
  status : JVal := .undef
  headers : Option (List (String × String)) := none
  responseTime : JVal := .undef
  isTimeout : JVal := .undef
  responseText : JVal := .undef
  responseFile : JVal := .undef
deriving DecidableEq

/-- One `_mapping` element: `{request: ..., response: ...}`. -/
structure MappingEntry where
  request : RequestPattern
  response : ResponsePlan
deriving DecidableEq

/-- Inbound socket request as seen by the listen handler: `request.method`
(uppercase on the wire), `request.url`, and `request.post` — the raw body,
`none` when the request carries no body field. -/
structure Request where
  method : String
  url : String
  post : Option String
deriving DecidableEq

/-- Models the truthiness test `request.post && ...`: the body is present
and non-empty. -/
def postTruthy : Option String → Bool
  | some s => s != ""
  | none => false

/-- Models `JSON.stringify(request.post)` for a string body.  Only
evaluated under a `postTruthy` guard, mirroring the `&&` short circuit. -/
def stringifyPost : Option String → String
  | some s => jsonQuote s
  | none => "undefined"

/-! ## Request matcher (listen handler, match condition) -/

/-- Models the JavaScript test `!field` on an optional string field:
true when the field is absent or holds the (falsy) empty string. -/
def jsFalsyStr : Option String → Bool
  | none => true
  | some s => s == ""

/-- Per-entry match condition of the listen handler, translated clause by
clause from the source:

`(!expReq.method || expReq.method.toUpperCase() === request.method)`
`&& (!expReq.url || request.url.indexOf(expReq.url) >= 0 || new RegExp(expReq.url).test(request.url))`
`&& (!expReq.data || (request.post && JSON.stringify(request.post).indexOf(expReq.data) >= 0) || (request.post && new RegExp(expReq.data).test(JSON.stringify(request.post))))`

`regexTest` abstracts the JavaScript regular-expression engine. -/
def entryMatches (regexTest : String → String → Bool)
    (pat : RequestPattern) (req : Request) : Bool :=
  (jsFalsyStr pat.method || jsUpper (pat.method.getD "") == req.method)
  && (jsFalsyStr pat.url || strContains (pat.url.getD "") req.url
        || regexTest (pat.url.getD "") req.url)
  && (jsFalsyStr pat.data
        || (postTruthy req.post
              && strContains (pat.data.getD "") (stringifyPost req.post))
        || (postTruthy req.post
              && regexTest (pat.data.getD "") (stringifyPost req.post)))

/-- Per-pattern match condition of the Casper interception hook
(`addToResourceRequestedEvent`, inner `changeUrl`), translated clause by
clause from the source: identical to the socket condition on method and
url, but the data clause runs against the raw `requestData.postData`
with no body-presence guard and no `JSON.stringify`. -/
def bridgeMatches (regexTest : String → String → Bool)
    (pat : RequestPattern) (method url postData : String) : Bool :=
  (jsFalsyStr pat.method || jsUpper (pat.method.getD "") == method)
  && (jsFalsyStr pat.url || strContains (pat.url.getD "") url
        || regexTest (pat.url.getD "") url)
  && (jsFalsyStr pat.data
        || strContains (pat.data.getD "") postData
        || regexTest (pat.data.getD "") postData)

/-- The listen handler's scan: `for (i = 0; i < _mapping.length && !isMatched; i++)`
— the first entry whose pattern matches, or `none`. -/
def findFirstMatch (regexTest : String → String → Bool) :
    List MappingEntry → Request → Option MappingEntry
  | [], _ => none
  | e :: rest, req =>
      if entryMatches regexTest e.request req then some e
      else findFirstMatch regexTest rest req

/-! ## Response synthesis (listen handler, matched branch) -/

/-- Models the timeout test
`expResp.isTimeout === true || (isString(expResp.isTimeout) && expResp.isTimeout.toLowerCase() === "true")`. -/
def isTimeoutFlag (v : JVal) : Bool :=
  v == .bool true || (v.isString && jsLower v.strVal == "true")

/-- Models `expResp.status || 200`: the plan's status when truthy, the
number 200 otherwise. -/
def effStatus (p : ResponsePlan) : JVal :=
  if p.status.truthy then p.status else .num 200

/-- Models `expResp.headers || {}`: the plan's headers object when
present, the empty object otherwise. -/
def effHeaders (p : ResponsePlan) : List (String × String) :=
  p.headers.getD []

/-- Models `var timeout = expResp.responseTime; if (!isNumber(timeout)) timeout = 0;`. -/
def effDelay (p : ResponsePlan) : Int :=
  match p.responseTime with
  | .num n => n
  | _ => 0

/-- Models the body resolution of the matched branch: `responseText` when
it is a string; otherwise, when `responseFile` is truthy, the result of
the `fs.read` collaborator (`fsRead path = none` models a thrown read
error, which the source catches and logs, leaving `responseText`
non-string); any non-string outcome is finally replaced by `""`. -/
def resolveBody (fsRead : String → Option String) (p : ResponsePlan) : String :=
  match p.responseText with
  | .str s => s
  | _ =>
    if p.responseFile.truthy then
      match fsRead p.responseFile.jsToString with
      | some content => content
      | none => ""
    else ""

/-- Observable outcome of the matched branch.  `timeout` records that the
handler set `statusCode`/`headers` but never writes a body and never
closes the connection (no `setTimeout` call is ever scheduled);
`timed` records the scheduled `setTimeout` delivery: after `delayMs`
milliseconds the body is written and the connection closed. -/
inductive SynthResult where
  | timeout (status : JVal) (headers : List (String × String))
  | timed (status : JVal) (headers : List (String × String))
      (body : String) (delayMs : Int)
deriving DecidableEq

/-- Response synthesis for a matched entry's plan, translated from the
matched branch of the listen handler. -/
def synthesize (fsRead : String → Option String) (p : ResponsePlan) : SynthResult :=
  let status := effStatus p
  let headers := effHeaders p
  if isTimeoutFlag p.isTimeout then .timeout status headers
  else .timed status headers (resolveBody fsRead p) (effDelay p)

/-! ## Server state and the listen handler -/

/-- Module-level mutable state of the source: `_mapping`, `_port`,
`_isServerUp`, `_currentReq`, and whether `server` is non-null.  The
port is a JavaScript number; `none` models `NaN` (which `parseInt`
produces on non-numeric strings). -/
structure ServerState where
  mapping : List MappingEntry
  port : Option Int
  isServerUp : Bool
  currentReq : RequestPattern
  serverExists : Bool
deriving DecidableEq

/-- Initial module state: `_mapping = []`, `_port = 0`,
`_isServerUp = false`, `_currentReq = {}`, `server = null`. -/
def initialState : ServerState :=
  { mapping := [], port := some 0, isServerUp := false,
    currentReq := emptyPattern, serverExists := false }

/-- The fixed warning the handler writes when `_currentReq` is non-empty. -/
def pendingWarnMsg : String :=
  "You have .when() been called, but NO .response() following to define the expected response."

/-- Observable outcome of one invocation of the listen handler.
`pendingWarn body` records that the handler wrote `body`, closed the
connection and threw without scanning the mapping; `served` records the
matched branch; `notFound status` records that the handler set
`statusCode` to `status` and closed the connection without writing a
body. -/
inductive HandlerOutcome where
  | pendingWarn (bodyWritten : String)
  | served (s : SynthResult)
  | notFound (status : JVal)
deriving DecidableEq

/-- One invocation of the listen handler, translated from the source:
the pending-pattern guard throws first; otherwise the first matching
entry is served; otherwise the 404 branch runs. -/
def handleRequest (regexTest : String → String → Bool)
    (fsRead : String → Option String) (st : ServerState) (req : Request) :
    HandlerOutcome :=
  if !st.currentReq.isEmptyObj then .pendingWarn pendingWarnMsg
  else
    match findFirstMatch regexTest st.mapping req with
    | some e => .served (synthesize fsRead e.response)
    | none => .notFound (.num 404)

/-! ## Lifecycle operations -/

/-- Errors thrown by the configuration surface.  The spec's
`InvalidPortError` covers `invalidPortNumber` ("Invalid port number")
and `portOutOfRange` ("Port number is out of the range[1025-49151]");
`startFail` is "Mock Server is NOT started successfully." and
`unmatchedPattern` is "Please call .when() to set the request pattern
first". -/
inductive JSError where
  | invalidPortNumber
  | portOutOfRange
  | startFail
  | unmatchedPattern
deriving DecidableEq

/-- Quote-escapes the `data` field, as `when` does before storing the
pattern (`if (req.data) req.data = req.data.replace(...)`; the guard
skips absent and empty — falsy — data). -/
def escapePattern (p : RequestPattern) : RequestPattern :=
  { p with data :=
      match p.data with
      | some s => if s != "" then some (escapeQuotes s) else some s
      | none => none }

/-- Models `when(req)`: escape the data field, overwrite `_currentReq`.
Total — `when` has no error path. -/
def whenStep (st : ServerState) (req : RequestPattern) : ServerState :=
  { st with currentReq := escapePattern req }

/-- Models `response(resp)`: throw when `_currentReq` is the empty
object, otherwise push `{request: _currentReq, response: resp}` and clear
`_currentReq`.  (The `addToResourceRequestedEvent()` call in the success
branch only rewrites the Casper hook, whose predicate is modelled by
`bridgeMatches`; it touches none of the fields tracked here.) -/
def responseStep (st : ServerState) (plan : ResponsePlan) :
    ServerState × Option JSError :=
  if st.currentReq.isEmptyObj then (st, some .unmatchedPattern)
  else
    ({ st with mapping := st.mapping ++ [⟨st.currentReq, plan⟩],
               currentReq := emptyPattern }, none)

/-- Models `reset()`: empty `_mapping`, clear `_currentReq` (the Casper
branch only restores the saved hook). -/
def resetStep (st : ServerState) : ServerState :=
  { st with mapping := [], currentReq := emptyPattern }

/-- Models `close()`: `reset(); _port = 0; _isServerUp = false;` and
release of the server object. -/
def closeStep (st : ServerState) : ServerState :=
  { resetStep st with port := some 0, isServerUp := false, serverExists := false }

/-! ## Port parsing and `start` -/

/-- Numeric value of a decimal digit character, `none` otherwise. -/
def decDigitVal (c : Char) : Option Nat :=
  if 48 ≤ c.toNat ∧ c.toNat ≤ 57 then some (c.toNat - 48) else none

/-- Numeric value of a hexadecimal digit character, `none` otherwise. -/
def hexDigitVal (c : Char) : Option Nat :=
  if 48 ≤ c.toNat ∧ c.toNat ≤ 57 then some (c.toNat - 48)
  else if 97 ≤ c.toNat ∧ c.toNat ≤ 102 then some (c.toNat - 87)
  else if 65 ≤ c.toNat ∧ c.toNat ≤ 70 then some (c.toNat - 55)
  else none

/-- Longest digit prefix of a character list, under a digit reader. -/
def takeDigits (f : Char → Option Nat) : List Char → List Nat
  | [] => []
  | c :: cs =>
      match f c with
      | some d => d :: takeDigits f cs
      | none => []

/-- Value of a digit list in the given base. -/
def digitsVal (base : Nat) (ds : List Nat) : Nat :=
  ds.foldl (fun a d => a * base + d) 0

/-- ASCII whitespace recognised by JavaScript `String.prototype.trim`. -/
def isJsSpace (c : Char) : Bool :=
  c = ' ' || c = '\n' || c = '\t' || c = '\r' || c = '\x0b' || c = '\x0c'

/-- Models JavaScript `s.trim()` (ASCII whitespace). -/
def jsTrim (s : String) : String :=
  ⟨((s.data.dropWhile isJsSpace).reverse.dropWhile isJsSpace).reverse⟩

/-- Models JavaScript `parseInt` on an already-trimmed string: optional
sign, optional `0x`/`0X` hex prefix, then the longest digit prefix;
`none` models the `NaN` result when no digit is found. -/
def jsParseInt (s : String) : Option Int :=
  let signAndRest : Int × List Char :=
    match s.data with
    | '-' :: cs => (-1, cs)
    | '+' :: cs => (1, cs)
    | cs => (1, cs)
  let baseAndBody : Nat × List Char :=
    match signAndRest.2 with
    | '0' :: 'x' :: cs => (16, cs)
    | '0' :: 'X' :: cs => (16, cs)
    | cs => (10, cs)
  let f := if baseAndBody.1 == 16 then hexDigitVal else decDigitVal
  match takeDigits f baseAndBody.2 with
  | [] => none
  | ds => some (signAndRest.1 * (digitsVal baseAndBody.1 ds : Int))

/-- Result of the port-validation prefix of `start`: the computed
`thisPort` (a JavaScript number, possibly `NaN`) or the thrown error. -/
inductive PortResult where
  | ok (t : Option Int)
  | thrown (e : JSError)
deriving DecidableEq

/-- Models the first validation block of `start`: a string argument is
parsed with `parseInt(port.trim())` (possibly `NaN`), a number is taken
as is, anything else throws "Invalid port number". -/
def computeThisPort (p : JVal) : PortResult :=
  match p with
  | .str s => .ok (jsParseInt (jsTrim s))
  | .num n => .ok (some n)
  | _ => .thrown .invalidPortNumber

/-- Models `thisPort > 49151` under JavaScript comparison: every
comparison against `NaN` is false. -/
def jnGt : Option Int → Int → Bool
  | none, _ => false
  | some a, b => a > b

/-- Models `thisPort < 1025` under JavaScript comparison: every
comparison against `NaN` is false. -/
def jnLt : Option Int → Int → Bool
  | none, _ => false
  | some a, b => a < b

/-- Models `thisPort === _port` on JavaScript numbers: `NaN === x` is
always false. -/
def jnEq : Option Int → Option Int → Bool
  | some a, some b => a == b
  | _, _ => false

/-- Models the port-validation part of `start`: the value of `thisPort`
after the two guard blocks, or the error thrown. -/
def validatePort (p : JVal) : PortResult :=
  match computeThisPort p with
  | .thrown e => .thrown e
  | .ok t =>
      if jnGt t 49151 || jnLt t 1025 then .thrown .portOutOfRange
      else .ok t

/-- Models `start(port)`, with the `server.listen` collaborator abstracted
as `listenOk` (the truthiness of its result, as a function of the bound
port).  The returned error, if any, is the value thrown; state mutations
performed before a throw persist, as in JavaScript. -/
def startStep (listenOk : Option Int → Bool) (st : ServerState) (p : JVal) :
    ServerState × Option JSError :=
  match validatePort p with
  | .thrown e => (st, some e)
  | .ok t =>
      if st.isServerUp && jnEq t st.port then (resetStep st, none)
      else
        let st1 := if st.isServerUp then closeStep st else st
        let st2 := { st1 with port := t, serverExists := true }
        let result := listenOk t
        let st3 := { st2 with isServerUp := result }
        if result then (st3, none) else (st3, some .startFail)

/-! ## Spec-side matcher definitions

These follow the wording of the specification, to be compared with the
source-derived `entryMatches`. -/

/-- Case-insensitive string equality, as the spec words it. -/
def ciEqual (a b : String) : Bool := jsUpper a == jsUpper b

/-- Matcher written from the claim's words, absence read strictly: the
method is absent or equals the request method case-insensitively; the
url is absent, or a substring of the request url, or accepted by the
regex engine; the data is absent, or the request has a body and the
serialized body contains the data or is accepted by it as a regex. -/
def specMatchOrig (regexTest : String → String → Bool)
    (pat : RequestPattern) (req : Request) : Bool :=
  (pat.method.isNone || ciEqual (pat.method.getD "") req.method)
  && (pat.url.isNone || strContains (pat.url.getD "") req.url
        || regexTest (pat.url.getD "") req.url)
  && (pat.data.isNone
        || (req.post.isSome
              && (strContains (pat.data.getD "") (stringifyPost req.post)
                    || regexTest (pat.data.getD "") (stringifyPost req.post))))

/-- Matcher written from the amended claim: absence is widened to
"absent or empty" (the empty string is falsy in the source's guards) and
"has a body" is strengthened to "has a non-empty body". -/
def specMatchAmended (regexTest : String → String → Bool)
    (pat : RequestPattern) (req : Request) : Bool :=
  (pat.method.isNone || pat.method == some ""
      || ciEqual (pat.method.getD "") req.method)
  && (pat.url.isNone || pat.url == some ""
        || strContains (pat.url.getD "") req.url
        || regexTest (pat.url.getD "") req.url)
  && (pat.data.isNone || pat.data == some ""
        || (postTruthy req.post
              && (strContains (pat.data.getD "") (stringifyPost req.post)
                    || regexTest (pat.data.getD "") (stringifyPost req.post))))

/-! ## Concrete fixtures used by witnesses and counterexamples -/

/-- A request matching the usage examples: a GET whose url contains
`ajax_info_1`. -/
def reqGetW : Request := ⟨"GET", "/test/ajax_info_1?x=1", none⟩

/-- An entry matching any GET on an `ajax_info_1` url. -/
def entryInfoW : MappingEntry :=
  ⟨⟨some "GET", some "ajax_info_1", none⟩,
   { status := .num 200, responseText := .str "Mock Response 1" }⟩

/-- A second entry matching the same requests as `entryInfoW`. -/
def entryInfoW2 : MappingEntry :=
  ⟨⟨some "GET", some "ajax_info", none⟩,
   { status := .num 200, responseText := .str "Mock Response 2" }⟩

end MockServer

namespace MockServer

/-! ## Claim C1 -/

/-- C1: whenever some entry of the mapping list matches the request, the
scan of the listen handler returns the earliest-added matching entry: the
entry at the least matching index `j`, every entry before `j` failing the
match.  Truncating the list right after `j` leaves the scan's result
unchanged — entries after the first match are never consulted — and with
an empty pending slot the handler serves exactly that entry's synthesized
response, so the 404 branch is not taken. -/
theorem c1_first_match_wins (regexTest : String → String → Bool)
    (mapping : List MappingEntry) (req : Request) (i : Nat)
    (hi : i < mapping.length)
    (hm : entryMatches regexTest (mapping.get ⟨i, hi⟩).request req = true) :
    ∃ (j : Nat) (hj : j < mapping.length),
      j ≤ i ∧
      entryMatches regexTest (mapping.get ⟨j, hj⟩).request req = true ∧
      (∀ (k : Nat) (hk : k < mapping.length), k < j →
          entryMatches regexTest (mapping.get ⟨k, hk⟩).request req = false) ∧
      findFirstMatch regexTest mapping req = some (mapping.get ⟨j, hj⟩) ∧
      findFirstMatch regexTest (mapping.take (j + 1)) req =
        findFirstMatch regexTest mapping req ∧
      ∀ (fsRead : String → Option String) (st : ServerState),
        st.currentReq.isEmptyObj = true → st.mapping = mapping →
        handleRequest regexTest fsRead st req =
          .served (synthesize fsRead (mapping.get ⟨j, hj⟩).response) := by
  induction mapping generalizing i with
  | nil => exact absurd hi (by simp)
  | cons e rest ih =>
    cases hhead : entryMatches regexTest e.request req with
    | true =>
      refine ⟨0, Nat.succ_pos _, Nat.zero_le _, hhead, ?_, ?_, ?_, ?_⟩
      · intro k hk hk0; exact absurd hk0 (Nat.not_lt_zero k)
      · simp [findFirstMatch, hhead]
      · simp [findFirstMatch, hhead]
      · intro fsRead st hpend hmap
        simp [handleRequest, hpend, hmap, findFirstMatch, hhead]
    | false =>
      match i with
      | 0 =>
        exact absurd hm (by simp [List.get, hhead])
      | i + 1 =>
        obtain ⟨j, hj, hle, hmj, hbefore, hfind, htake, hserve⟩ :=
          ih i (Nat.lt_of_succ_lt_succ hi) hm
        refine ⟨j + 1, Nat.succ_lt_succ hj, Nat.succ_le_succ hle, hmj, ?_, ?_, ?_, ?_⟩
        · intro k hk hkj
          match k, hk with
          | 0, _ => exact hhead
          | k + 1, hk =>
            exact hbefore k (Nat.lt_of_succ_lt_succ hk) (Nat.lt_of_succ_lt_succ hkj)
        · simpa [findFirstMatch, hhead] using hfind
        · simpa [List.take, findFirstMatch, hhead] using htake
        · intro fsRead st hpend hmap
          simp only [handleRequest, hpend, hmap]
          simp only [findFirstMatch, hhead]
          rw [show findFirstMatch regexTest rest req =
            some (rest.get ⟨j, hj⟩) from hfind]
          rfl

/-- Witness for C1: two entries both matching `reqGetW`, the match at
index 1 establishing the hypothesis; the scan must pick an index at or
before 1. -/
theorem c1_first_match_wins_witness :
    ∃ (j : Nat) (hj : j < [entryInfoW, entryInfoW2].length),
      j ≤ 1 ∧
      entryMatches literalRegexTest
        ([entryInfoW, entryInfoW2].get ⟨j, hj⟩).request reqGetW = true ∧
      (∀ (k : Nat) (hk : k < [entryInfoW, entryInfoW2].length), k < j →
          entryMatches literalRegexTest
            ([entryInfoW, entryInfoW2].get ⟨k, hk⟩).request reqGetW = false) ∧
      findFirstMatch literalRegexTest [entryInfoW, entryInfoW2] reqGetW =
        some ([entryInfoW, entryInfoW2].get ⟨j, hj⟩) ∧
      findFirstMatch literalRegexTest ([entryInfoW, entryInfoW2].take (j + 1)) reqGetW =
        findFirstMatch literalRegexTest [entryInfoW, entryInfoW2] reqGetW ∧
      ∀ (fsRead : String → Option String) (st : ServerState),
        st.currentReq.isEmptyObj = true → st.mapping = [entryInfoW, entryInfoW2] →
        handleRequest literalRegexTest fsRead st reqGetW =
          .served (synthesize fsRead ([entryInfoW, entryInfoW2].get ⟨j, hj⟩).response) :=
  c1_first_match_wins literalRegexTest [entryInfoW, entryInfoW2] reqGetW 1
    (by decide) (by decide)

/-! ## Claim C4 -/

/-- C4: calling `response(plan)` with an empty pending-pattern slot
throws `UnmatchedPatternError` and leaves the whole state — in particular
the mapping list — unchanged; with a non-empty slot it appends
`{pending, plan}` at the end of the list, clears the slot, and throws
nothing. -/
theorem c4_response_requires_pending (st : ServerState) (plan : ResponsePlan) :
    (st.currentReq.isEmptyObj = true →
      responseStep st plan = (st, some .unmatchedPattern)) ∧
    (st.currentReq.isEmptyObj = false →
      responseStep st plan =
        ({ st with mapping := st.mapping ++ [⟨st.currentReq, plan⟩],
                   currentReq := emptyPattern }, none)) := by
  constructor <;> intro h <;> simp [responseStep, h]

/-- Witness for C4, at a fresh state and at a state holding the pending
pattern of the first usage example. -/
theorem c4_response_requires_pending_witness :
    responseStep initialState { responseText := .str "Mock Response 1" } =
      (initialState, some .unmatchedPattern) ∧
    responseStep { initialState with currentReq := ⟨some "GET", some "ajax_info_1", none⟩ }
        { responseText := .str "Mock Response 1" } =
      ({ initialState with
          mapping := [⟨⟨some "GET", some "ajax_info_1", none⟩,
                       { responseText := .str "Mock Response 1" }⟩],
          currentReq := emptyPattern }, none) := by
  refine ⟨(c4_response_requires_pending initialState _).1 (by decide), ?_⟩
  have h := (c4_response_requires_pending
    { initialState with currentReq := ⟨some "GET", some "ajax_info_1", none⟩ }
    { responseText := .str "Mock Response 1" }).2 (by decide)
  simpa [initialState] using h

/-! ## Claim C5 -/

/-- C5: after `reset()` — from any reachable state, hence after any
sequence of `when`/`response` calls — the mapping list and the pending
slot are empty, and every subsequent inbound request matches no entry and
is answered by the 404 branch (statusCode 404, connection closed, no body
written). -/
theorem c5_reset_clears_everything (st : ServerState) :
    (resetStep st).mapping = [] ∧
    (resetStep st).currentReq = emptyPattern ∧
    ∀ (regexTest : String → String → Bool) (fsRead : String → Option String)
      (req : Request),
      findFirstMatch regexTest (resetStep st).mapping req = none ∧
      handleRequest regexTest fsRead (resetStep st) req = .notFound (.num 404) := by
  refine ⟨rfl, rfl, fun regexTest fsRead req => ⟨rfl, ?_⟩⟩
  simp [handleRequest, resetStep, emptyPattern, RequestPattern.isEmptyObj,
    findFirstMatch]

/-! ## Claim C6 -/

/-- C6: when the plan's `isTimeout` is the boolean `true` or a string
equal to "true" case-insensitively, the matched branch produces the
`timeout` outcome — statusCode and headers are assigned but no body is
ever written, no delivery is scheduled and the connection is never
closed — and the plan's `responseTime` is ignored: replacing it by any
value yields the same outcome. -/
theorem c6_timeout_never_responds (fsRead : String → Option String)
    (p : ResponsePlan) (rt : JVal)
    (h : p.isTimeout = .bool true ∨
         (p.isTimeout.isString = true ∧ jsLower p.isTimeout.strVal = "true")) :
    synthesize fsRead p = .timeout (effStatus p) (effHeaders p) ∧
    synthesize fsRead { p with responseTime := rt } =
      .timeout (effStatus p) (effHeaders p) := by
  have hflag : isTimeoutFlag p.isTimeout = true := by
    rcases h with h | ⟨h1, h2⟩
    · simp [isTimeoutFlag, h]
    · simp [isTimeoutFlag, h1, h2]
  constructor
  · simp [synthesize, hflag]
  · simp [synthesize, effStatus, effHeaders, hflag]

/-- Witness for C6: a boolean `isTimeout` plan carrying a `responseTime`,
replaced by the 5000 ms of scenario B. -/
theorem c6_timeout_never_responds_witness :
    synthesize (fun _ => none) { isTimeout := .bool true, responseTime := .num 99 } =
      .timeout (effStatus { isTimeout := .bool true, responseTime := .num 99 })
        (effHeaders { isTimeout := .bool true, responseTime := .num 99 }) ∧
    synthesize (fun _ => none)
        { ({ isTimeout := .bool true, responseTime := .num 99 } : ResponsePlan) with
            responseTime := .num 5000 } =
      .timeout (effStatus { isTimeout := .bool true, responseTime := .num 99 })
        (effHeaders { isTimeout := .bool true, responseTime := .num 99 }) :=
  c6_timeout_never_responds (fun _ => none)
    { isTimeout := .bool true, responseTime := .num 99 } (.num 5000) (Or.inl rfl)

/-! ## Claim C7 -/

/-- Body resolution when `responseText` is not a string: the source falls
through to the `responseFile` branch, a caught read failure leaving the
non-string `responseText` to be replaced by the empty string. -/
theorem resolveBody_not_string (fsRead : String → Option String)
    (p : ResponsePlan) (h : p.responseText.isString = false) :
    resolveBody fsRead p =
      if p.responseFile.truthy then
        (match fsRead p.responseFile.jsToString with
         | some content => content
         | none => "")
      else "" := by
  cases hrt : p.responseText <;> rw [hrt] at h <;>
    simp [JVal.isString] at h ⊢ <;> simp [resolveBody, hrt]

/-- C7: for a matched non-timeout plan the outcome is always a scheduled
`timed` delivery whose body follows the resolution order — the string
`responseText` if there is one; else, with a truthy `responseFile`, the
capability's content on success and the empty string on a caught read
failure; else the empty string — while the status defaults to 200 when
absent, the headers default to the empty mapping, and the delay defaults
to 0 whenever `responseTime` is not a number. -/
theorem c7_synthesis_policy (fsRead : String → Option String)
    (p : ResponsePlan) (h : isTimeoutFlag p.isTimeout = false) :
    (∀ s, p.responseText = .str s →
        synthesize fsRead p = .timed (effStatus p) (effHeaders p) s (effDelay p)) ∧
    (p.responseText.isString = false → p.responseFile.truthy = true →
      ∀ c, fsRead p.responseFile.jsToString = some c →
        synthesize fsRead p = .timed (effStatus p) (effHeaders p) c (effDelay p)) ∧
    (p.responseText.isString = false → p.responseFile.truthy = true →
      fsRead p.responseFile.jsToString = none →
        synthesize fsRead p = .timed (effStatus p) (effHeaders p) "" (effDelay p)) ∧
    (p.responseText.isString = false → p.responseFile.truthy = false →
        synthesize fsRead p = .timed (effStatus p) (effHeaders p) "" (effDelay p)) ∧
    (p.status = .undef → effStatus p = .num 200) ∧
    (p.headers = none → effHeaders p = []) ∧
    (p.responseTime.isNumber = false → effDelay p = 0) := by
  refine ⟨?_, ?_, ?_, ?_, ?_, ?_, ?_⟩
  · intro s hs
    simp [synthesize, h, resolveBody, hs]
  · intro h1 h2 c hc
    simp [synthesize, h, resolveBody_not_string fsRead p h1, h2, hc]
  · intro h1 h2 hc
    simp [synthesize, h, resolveBody_not_string fsRead p h1, h2, hc]
  · intro h1 h2
    simp [synthesize, h, resolveBody_not_string fsRead p h1, h2]
  · intro hs
    simp [effStatus, hs, JVal.truthy]
  · intro hh
    simp [effHeaders, hh]
  · intro hn
    cases hrt : p.responseTime <;> rw [hrt] at hn <;>
      simp [JVal.isNumber] at hn ⊢ <;> simp [effDelay, hrt]

/-- Witness for C7: a text-bearing plan, a file-bearing plan whose read
succeeds, and one whose read fails. -/
theorem c7_synthesis_policy_witness :
    synthesize (fun path => if path == "f.txt" then some "filedata" else none)
        { status := .num 201, responseText := .str "Mock Response 1" } =
      .timed (effStatus { status := .num 201, responseText := .str "Mock Response 1" })
        (effHeaders { status := .num 201, responseText := .str "Mock Response 1" })
        "Mock Response 1"
        (effDelay { status := .num 201, responseText := .str "Mock Response 1" }) ∧
    synthesize (fun path => if path == "f.txt" then some "filedata" else none)
        { responseFile := .str "f.txt" } =
      .timed (effStatus { responseFile := .str "f.txt" })
        (effHeaders { responseFile := .str "f.txt" })
        "filedata" (effDelay { responseFile := .str "f.txt" }) ∧
    synthesize (fun path => if path == "f.txt" then some "filedata" else none)
        { responseFile := .str "missing.txt" } =
      .timed (effStatus { responseFile := .str "missing.txt" })
        (effHeaders { responseFile := .str "missing.txt" })
        "" (effDelay { responseFile := .str "missing.txt" }) :=
  ⟨(c7_synthesis_policy (fun path => if path == "f.txt" then some "filedata" else none)
      { status := .num 201, responseText := .str "Mock Response 1" } (by decide)).1
      "Mock Response 1" rfl,
   (c7_synthesis_policy (fun path => if path == "f.txt" then some "filedata" else none)
      { responseFile := .str "f.txt" } (by decide)).2.1
      (by decide) (by decide) "filedata" (by decide),
   (c7_synthesis_policy (fun path => if path == "f.txt" then some "filedata" else none)
      { responseFile := .str "missing.txt" } (by decide)).2.2.1
      (by decide) (by decide) (by decide)⟩

/-! ## Claim C10 -/

/-- C10: whenever the pending-pattern slot is non-empty, the listen
handler writes the fixed warning message, closes the connection and
throws, without consulting the mapping list: the outcome is the same for
every mapping list, including ones holding an entry that matches the
request. -/
theorem c10_pending_blocks_handler (regexTest : String → String → Bool)
    (fsRead : String → Option String) (st : ServerState) (req : Request)
    (h : st.currentReq.isEmptyObj = false) :
    handleRequest regexTest fsRead st req = .pendingWarn pendingWarnMsg ∧
    ∀ mp : List MappingEntry,
      handleRequest regexTest fsRead { st with mapping := mp } req =
        .pendingWarn pendingWarnMsg := by
  exact ⟨by simp [handleRequest, h], fun mp => by simp [handleRequest, h]⟩

/-- Witness for C10: a dangling `when` pattern blocks even a request that
the stored entry `entryInfoW` matches. -/
theorem c10_pending_blocks_handler_witness :
    handleRequest literalRegexTest (fun _ => none)
      { initialState with currentReq := ⟨some "POST", none, none⟩ } reqGetW =
      .pendingWarn pendingWarnMsg ∧
    handleRequest literalRegexTest (fun _ => none)
      { { initialState with currentReq := ⟨some "POST", none, none⟩ } with
          mapping := [entryInfoW] } reqGetW =
      .pendingWarn pendingWarnMsg :=
  ⟨(c10_pending_blocks_handler literalRegexTest (fun _ => none)
      { initialState with currentReq := ⟨some "POST", none, none⟩ } reqGetW
      (by decide)).1,
   (c10_pending_blocks_handler literalRegexTest (fun _ => none)
      { initialState with currentReq := ⟨some "POST", none, none⟩ } reqGetW
      (by decide)).2 [entryInfoW]⟩

/-! ## Claim C3 -/

/-- C3 (code bug): the argument `"abc"` is neither a number nor a numeric
string, yet `start("abc")` does not throw `InvalidPortError`: `parseInt`
yields `NaN`, both range comparisons against `NaN` are false, so
validation passes with `thisPort = NaN`; `start` then proceeds to bind —
with a listener collaborator that reports success, the server even comes
up with `_port = NaN`. -/
theorem c3_invalid_port_slips_through :
    validatePort (JVal.str "abc") = .ok none ∧
    startStep (fun _ => true) initialState (JVal.str "abc") =
      ({ initialState with
          port := none
          serverExists := true
          isServerUp := true }, none) :=
  ⟨by decide, by decide⟩

/-! ## Claim C2 -/

/-- The JavaScript falsy test on an optional string field, restated as a
disjunction of the two falsy shapes. -/
theorem jsFalsyStr_eq (o : Option String) :
    jsFalsyStr o = (o.isNone || o == some "") := by
  cases o with
  | none => rfl
  | some s => simp [jsFalsyStr]

/-- Boolean shape shared by the data clauses: hoisting the common guard
out of the two disjuncts. -/
theorem or_and_or_factor (f t c r : Bool) :
    (f || (t && c) || (t && r)) = (f || (t && (c || r))) := by
  cases f <;> cases t <;> cases c <;> cases r <;> rfl

/-- C2 (counterexample to the claim as stated): a pattern whose `method`
field is present but holds the empty string.  The source's falsy test
`!expReq.method` lets it match any request, while the claim's three-part
rule — method absent or case-insensitively equal — rejects it. -/
theorem c2_counterexample :
    entryMatches literalRegexTest ⟨some "", none, none⟩ reqGetW = true ∧
    specMatchOrig literalRegexTest ⟨some "", none, none⟩ reqGetW = false :=
  ⟨by decide, by decide⟩

/-- C2 (amended): for requests whose method is uppercase (as the claim's
request descriptor stipulates), the per-entry match condition of the
listen handler coincides with the three-part rule once "absent" is
widened to "absent or empty" — empty fields are falsy in the source's
guards — and "has a body" is read as "has a non-empty body". -/
theorem c2_match_rule (regexTest : String → String → Bool)
    (pat : RequestPattern) (req : Request)
    (hup : jsUpper req.method = req.method) :
    entryMatches regexTest pat req = specMatchAmended regexTest pat req := by
  unfold entryMatches specMatchAmended ciEqual
  rw [jsFalsyStr_eq pat.method, jsFalsyStr_eq pat.url, jsFalsyStr_eq pat.data,
    hup, or_and_or_factor]

/-- Witness for C2 (amended), on a POST of scenario B shape. -/
theorem c2_match_rule_witness :
    entryMatches literalRegexTest ⟨some "post", some "ajax_info_2", some "member_id=1"⟩
        ⟨"POST", "/ajax_info_2", some "member_id=1&x=2"⟩ =
      specMatchAmended literalRegexTest ⟨some "post", some "ajax_info_2", some "member_id=1"⟩
        ⟨"POST", "/ajax_info_2", some "member_id=1&x=2"⟩ :=
  c2_match_rule literalRegexTest ⟨some "post", some "ajax_info_2", some "member_id=1"⟩
    ⟨"POST", "/ajax_info_2", some "member_id=1&x=2"⟩ (by decide)

/-! ## Claim C8 -/

/-- C8 (counterexample to the claim as stated): the pattern whose `data`
is one double-quote character, against a request whose body is `hello`.
The socket matcher tests the JSON-serialized body — which contains a
quote — so it matches; the interception-hook matcher tests the raw post
data `hello`, so it does not.  (The quote pattern is metacharacter-free,
so `literalRegexTest` agrees with the JavaScript regex engine here.) -/
theorem c8_counterexample :
    entryMatches literalRegexTest ⟨none, none, some "\""⟩ ⟨"GET", "/", some "hello"⟩ = true ∧
    bridgeMatches literalRegexTest ⟨none, none, some "\""⟩ "GET" "/" "hello" = false :=
  ⟨by decide, by decide⟩

/-- C8 (amended): the method and url clauses of the two matchers are
identical, and the predicates coincide whenever the pattern's `data`
field is absent or empty — whatever body either side sees.  When `data`
is present they diverge: the socket matcher requires a truthy body and
tests the JSON-serialized body, the interception hook tests the raw post
data; feeding the hook the serialized body of a truthy socket body
restores agreement. -/
theorem c8_bridge_socket_agreement (regexTest : String → String → Bool)
    (pat : RequestPattern) (m u : String) :
    (pat.data = none ∨ pat.data = some "" →
      ∀ (post : Option String) (postData : String),
        bridgeMatches regexTest pat m u postData =
          entryMatches regexTest pat ⟨m, u, post⟩) ∧
    (∀ post : Option String, postTruthy post = true →
        bridgeMatches regexTest pat m u (stringifyPost post) =
          entryMatches regexTest pat ⟨m, u, post⟩) := by
  constructor
  · rintro (hd | hd) post postData <;>
      simp [bridgeMatches, entryMatches, jsFalsyStr, hd]
  · intro post hp
    simp [bridgeMatches, entryMatches, hp]

/-- Witness for C8 (amended): a data-free pattern agrees on arbitrary
bodies, and the quote-data pattern agrees once the hook sees the
serialized body. -/
theorem c8_bridge_socket_agreement_witness :
    bridgeMatches literalRegexTest ⟨some "GET", some "ajax_info_1", none⟩
        "GET" "/test/ajax_info_1?x=1" "whatever" =
      entryMatches literalRegexTest ⟨some "GET", some "ajax_info_1", none⟩ reqGetW ∧
    bridgeMatches literalRegexTest ⟨none, none, some "\""⟩
        "GET" "/" (stringifyPost (some "hello")) =
      entryMatches literalRegexTest ⟨none, none, some "\""⟩ ⟨"GET", "/", some "hello"⟩ :=
  ⟨(c8_bridge_socket_agreement literalRegexTest ⟨some "GET", some "ajax_info_1", none⟩
      "GET" "/test/ajax_info_1?x=1").1 (Or.inl rfl) none "whatever",
   (c8_bridge_socket_agreement literalRegexTest ⟨none, none, some "\""⟩
      "GET" "/").2 (some "hello") (by decide)⟩

/-! ## Claim C9 -/

/-- C9 (counterexample to the claim as stated): overwriting the pending
pattern with a pattern whose `data` holds a quote.  `when` escapes the
quote before storing, so the entry appended by the following `response`
carries the escaped pattern, not the pattern as passed. -/
theorem c9_counterexample :
    (responseStep
        (whenStep (whenStep initialState ⟨none, some "a", none⟩) ⟨none, none, some "x\"y"⟩)
        {}).1.mapping
      ≠ [⟨⟨none, none, some "x\"y"⟩, {}⟩] := by decide

/-- Escaping the data field does not change which fields are present. -/
theorem escapePattern_isEmptyObj (p : RequestPattern) :
    (escapePattern p).isEmptyObj = p.isEmptyObj := by
  unfold escapePattern RequestPattern.isEmptyObj
  cases hd : p.data with
  | none => rfl
  | some s => by_cases hs : s != "" <;> simp [hs]

/-- C9 (amended): calling `when(p2)` over a still-pending `when(p1)`
raises no error — `whenStep` is total — and silently replaces the pending
pattern with the quote-escaped normalization of `p2`; provided `p2` has
at least one present field, the next `response(plan)` throws nothing and
appends exactly `{escapePattern p2, plan}`, so `p1` is discarded. -/
theorem c9_last_when_wins (st : ServerState) (p1 p2 : RequestPattern)
    (plan : ResponsePlan) (h : p2.isEmptyObj = false) :
    (whenStep (whenStep st p1) p2).currentReq = escapePattern p2 ∧
    responseStep (whenStep (whenStep st p1) p2) plan =
      ({ whenStep (whenStep st p1) p2 with
          mapping := st.mapping ++ [⟨escapePattern p2, plan⟩]
          currentReq := emptyPattern }, none) := by
  have h2 : (escapePattern p2).isEmptyObj = false := by
    rw [escapePattern_isEmptyObj]; exact h
  exact ⟨rfl, by simp [responseStep, whenStep, h2]⟩

/-- Witness for C9 (amended), at the quote-carrying pattern of the
counterexample. -/
theorem c9_last_when_wins_witness :
    (whenStep (whenStep initialState ⟨none, some "a", none⟩) ⟨none, none, some "x\"y"⟩).currentReq =
      escapePattern ⟨none, none, some "x\"y"⟩ ∧
    responseStep (whenStep (whenStep initialState ⟨none, some "a", none⟩) ⟨none, none, some "x\"y"⟩) {} =
      ({ whenStep (whenStep initialState ⟨none, some "a", none⟩) ⟨none, none, some "x\"y"⟩ with
          mapping := initialState.mapping ++ [⟨escapePattern ⟨none, none, some "x\"y"⟩, {}⟩]
          currentReq := emptyPattern }, none) :=
  c9_last_when_wins initialState ⟨none, some "a", none⟩ ⟨none, none, some "x\"y"⟩ {} (by decide)

end MockServer
